import Mathlib

/-!
Verification of the GhostRecon repository: a 21-stage reconnaissance
pipeline runner (`recon.py`) and its companion installer (`install.py`).

The two Python programs are shallowly embedded here.  External processes
are opaque: an environment record supplies, for each command, its exit
status and captured output.  The filesystem is an association list from
path to file content; a stage that redirects stdout to a file (or whose
tool writes its own declared output file) updates that single entry.
All definitions are executable, and every stage/command table is
transcribed from the Python source.
-/

namespace GhostRecon

/-! ## Character-list text helpers (Python `str` operations) -/

/-- Python whitespace as stripped by `str.strip()`. -/
def isSpaceChar (c : Char) : Bool :=
  c == ' ' || c == '\t' || c == '\n' || c == '\r' || c == '\x0b' || c == '\x0c'

/-- Does `s` start with `pat`? -/
def lcStartsWith : List Char → List Char → Bool
  | _, [] => true
  | [], _ :: _ => false
  | c :: cs, d :: ds => c == d && lcStartsWith cs ds

/-- Python `pat in s` substring test. -/
def lcContainsSub : List Char → List Char → Bool
  | [], pat => pat.isEmpty
  | c :: rest, pat => lcStartsWith (c :: rest) pat || lcContainsSub rest pat

/-- Python `str.lower()` (ASCII). -/
def lcToLower (s : List Char) : List Char := s.map Char.toLower

/-- Python `str.strip()`. -/
def lcStrip (s : List Char) : List Char :=
  ((s.dropWhile isSpaceChar).reverse.dropWhile isSpaceChar).reverse

/-- Python `str.split(sep)` for a single character separator. -/
def lcSplitCh (sep : Char) : List Char → List (List Char)
  | [] => [[]]
  | d :: rest =>
    let r := lcSplitCh sep rest
    if d == sep then [] :: r
    else
      match r with
      | h :: t => (d :: h) :: t
      | [] => [[d]]

/-- Python `s[:50] + "..." if len(s) > 50 else s`. -/
def lcTrunc50 (s : List Char) : List Char :=
  if s.length > 50 then s.take 50 ++ "...".data else s

/-- Non-emptiness of a string, as a Bool. -/
def strNonEmpty (s : String) : Bool := !(s.data.isEmpty)

/-- Does the target contain a `.`?  Python `'.' in args.target`. -/
def containsDot (t : String) : Bool := t.data.contains '.'

/-! ## Filesystem model: association list from path to content -/

/-- A filesystem: list of (path, content) pairs, most recently created last. -/
abbrev Fs : Type := List (String × String)

/-- Open a path for writing and write `c` to it (create or overwrite). -/
def setFile : Fs → String → String → Fs
  | [], p, c => [(p, c)]
  | (q, d) :: rest, p, c =>
    if q = p then (p, c) :: rest else (q, d) :: setFile rest p c

/-- Read a file; `none` when the path does not exist. -/
def getFile : Fs → String → Option String
  | [], _ => none
  | (q, d) :: rest, p => if q = p then some d else getFile rest p

/-- `ReconPipeline.check_file_created`: the file exists and
`st_size > 0` (content non-empty).  Advisory only in the source. -/
def check_file_created (fs : Fs) (p : String) : Bool :=
  match getFile fs p with
  | some c => strNonEmpty c
  | none => false

/-! ## Pipeline stage table (`ReconPipeline.run_recon`) -/

/-- One pipeline stage, transcribed from `run_recon`.
`cmd` is the argv (for shell composites, the `bash -c` form);
`redirect` is the `output_file` argument given to
`run_command`/`run_shell_command` (the orchestrator opens it with
mode `w`); `toolWrite` is a file the invoked tool itself writes via
its own flags (`gowitness --json`, `ffuf -o`); `checkFile` is the
argument passed to `check_file_created` afterwards, if any. -/
structure Stage where
  idx : Nat
  name : String
  cmd : List String
  shell : Bool
  redirect : Option String
  toolWrite : Option String
  checkFile : Option String
  deriving Repr, DecidableEq

/-- The declared artifact file of a stage: the redirect target when
the orchestrator redirects stdout, else the tool-written file. -/
def artifactPath (s : Stage) : Option String :=
  match s.redirect with
  | some p => some p
  | none => s.toolWrite

/-- The 21 stages of `run_recon`, in source order, for target `t`. -/
def stages (t : String) : List Stage :=
  [ ⟨1, "subfinder",
      ["subfinder", "-d", t, "-all", "-silent"], false,
      some "output/01_subfinder.txt", none, some "output/01_subfinder.txt"⟩,
    ⟨2, "amass passive",
      ["amass", "enum", "-passive", "-d", t], false,
      some "output/02_amass_passive.txt", none, some "output/02_amass_passive.txt"⟩,
    ⟨3, "merge and de-duplicate subdomains",
      ["bash", "-c",
       "cat output/01_subfinder.txt output/02_amass_passive.txt | sort -u"], true,
      some "output/03_subs_uniq.txt", none, some "output/03_subs_uniq.txt"⟩,
    ⟨4, "DNS resolution",
      ["dnsx", "-l", "output/03_subs_uniq.txt", "-a", "-aaaa", "-cname", "-ns", "-resp"], false,
      some "output/04_dnsx_resolved.txt", none, some "output/04_dnsx_resolved.txt"⟩,
    ⟨5, "extract resolved hosts",
      ["bash", "-c",
       "awk \x27\x7bprint $1\x7d\x27 output/04_dnsx_resolved.txt | sort -u"], true,
      some "output/05_hosts_resolved.txt", none, some "output/05_hosts_resolved.txt"⟩,
    ⟨6, "naabu top 1000 ports scan",
      ["naabu", "-list", "output/05_hosts_resolved.txt", "-p", "top-1000", "-rate", "2000"], false,
      some "output/06_naabu_top1k.txt", none, some "output/06_naabu_top1k.txt"⟩,
    ⟨7, "naabu full TCP sweep",
      ["naabu", "-list", "output/05_hosts_resolved.txt", "-p", "-", "-rate", "500"], false,
      some "output/07_naabu_full.txt", none, some "output/07_naabu_full.txt"⟩,
    ⟨8, "merge open ports",
      ["bash", "-c",
       "cat output/06_naabu_top1k.txt output/07_naabu_full.txt | sort -u"], true,
      some "output/08_open_ports.txt", none, some "output/08_open_ports.txt"⟩,
    ⟨9, "httpx from subdomains",
      ["httpx", "-l", "output/03_subs_uniq.txt", "-status-code", "-title",
       "-tech-detect", "-follow-redirects"], false,
      some "output/09_httpx_subs.txt", none, some "output/09_httpx_subs.txt"⟩,
    ⟨10, "httpx from open ports",
      ["httpx", "-l", "output/08_open_ports.txt", "-status-code", "-title",
       "-tech-detect", "-follow-redirects"], false,
      some "output/10_httpx_ports.txt", none, some "output/10_httpx_ports.txt"⟩,
    ⟨11, "merge live URLs",
      ["bash", "-c",
       "cat output/09_httpx_subs.txt output/10_httpx_ports.txt | awk \x27\x7bprint $1\x7d\x27 | sort -u"], true,
      some "output/11_live_urls.txt", none, some "output/11_live_urls.txt"⟩,
    ⟨12, "gowitness screenshots",
      ["gowitness", "file", "-f", "output/11_live_urls.txt", "-t", "5",
       "--timeout", "10", "--log-level", "warn", "--destination", "screenshots",
       "--json", "screenshots/gowitness.json"], false,
      none, some "screenshots/gowitness.json", none⟩,
    ⟨13, "CNAME takeover candidates",
      ["bash", "-c",
       "awk \x27/CNAME/ \x7bprint $1,$5\x7d\x27 output/04_dnsx_resolved.txt"], true,
      some "output/12_cname_candidates.txt", none, some "output/12_cname_candidates.txt"⟩,
    ⟨14, "nuclei high-severity web scan",
      ["nuclei", "-l", "output/11_live_urls.txt", "-severity", "critical,high,medium",
       "-rl", "50", "-c", "50"], false,
      some "output/13_nuclei_web.txt", none, some "output/13_nuclei_web.txt"⟩,
    ⟨15, "nuclei takeover scan",
      ["nuclei", "-t", "http/takeovers/", "-l", "output/03_subs_uniq.txt",
       "-rl", "30", "-c", "30"], false,
      some "output/14_nuclei_takeover.txt", none, some "output/14_nuclei_takeover.txt"⟩,
    ⟨16, "GAU historical endpoints",
      ["gau", "--providers", "wayback,otx,urlscan", t], false,
      some "output/15_gau.txt", none, some "output/15_gau.txt"⟩,
    ⟨17, "extract parameters",
      ["bash", "-c", "cat output/15_gau.txt | unfurl --unique keys"], true,
      some "output/16_params.txt", none, some "output/16_params.txt"⟩,
    ⟨18, "ffuf directory fuzzing",
      ["ffuf", "-u", "https://" ++ t ++ "/FUZZ",
       "-w", "/usr/share/wordlists/dirb/common.txt",
       "-mc", "200,204,301,302,307,401,403", "-o", "output/17_ffuf_dirs.txt", "-of", "txt"], false,
      none, some "output/17_ffuf_dirs.txt", some "output/17_ffuf_dirs.txt"⟩,
    ⟨19, "ffuf parameter fuzzing",
      ["ffuf", "-u", "https://" ++ t ++ "/search?FUZZ=test",
       "-w", "output/16_params.txt", "-mc", "all", "-o", "output/18_ffuf_params.txt",
       "-of", "txt"], false,
      none, some "output/18_ffuf_params.txt", some "output/18_ffuf_params.txt"⟩,
    ⟨20, "httpx JS scraping",
      ["httpx", "-l", "output/11_live_urls.txt", "-path", "discovery",
       "-store-response-dir", "output/js_out", "-match-regex", "\\.js($|\\?)"], false,
      some "output/19_js_endpoints.txt", none, some "output/19_js_endpoints.txt"⟩,
    ⟨21, "robots.txt check",
      ["curl", "-s", "https://" ++ t ++ "/robots.txt"], false,
      some "output/20_robots.txt", none, some "output/20_robots.txt"⟩ ]

/-- The declared artifact of stage `i` (1-based), a fixed table. -/
def artifactOfIdx : Nat → Option String
  | 1 => some "output/01_subfinder.txt"
  | 2 => some "output/02_amass_passive.txt"
  | 3 => some "output/03_subs_uniq.txt"
  | 4 => some "output/04_dnsx_resolved.txt"
  | 5 => some "output/05_hosts_resolved.txt"
  | 6 => some "output/06_naabu_top1k.txt"
  | 7 => some "output/07_naabu_full.txt"
  | 8 => some "output/08_open_ports.txt"
  | 9 => some "output/09_httpx_subs.txt"
  | 10 => some "output/10_httpx_ports.txt"
  | 11 => some "output/11_live_urls.txt"
  | 12 => some "screenshots/gowitness.json"
  | 13 => some "output/12_cname_candidates.txt"
  | 14 => some "output/13_nuclei_web.txt"
  | 15 => some "output/14_nuclei_takeover.txt"
  | 16 => some "output/15_gau.txt"
  | 17 => some "output/16_params.txt"
  | 18 => some "output/17_ffuf_dirs.txt"
  | 19 => some "output/18_ffuf_params.txt"
  | 20 => some "output/19_js_endpoints.txt"
  | 21 => some "output/20_robots.txt"
  | _ => none

/-! ## Runner semantics -/

/-- The tools probed by `ReconPipeline.check_tools` via `shutil.which`. -/
def required_tools : List String :=
  ["subfinder", "amass", "dnsx", "naabu", "httpx",
   "nuclei", "gau", "unfurl", "ffuf", "gowitness", "curl"]

/-- Opaque behaviour of the outside world for one pipeline run:
per-stage process exit status and per-stage artifact content, plus
`shutil.which` resolution and whether `mkdir` succeeds. -/
structure Env where
  exitCode : Nat → Nat
  content : Nat → String
  onPath : String → Bool
  mkdirOk : Bool

/-- Observable log/trace events of the runner.  `checkReport i ok`
is the `check_file_created` log line (info when `ok`, warning when
not); `stageError` is the fatal `logger.error` on stage failure. -/
inductive Event where
  | invoked (i : Nat)
  | checkReport (i : Nat) (ok : Bool)
  | stageError (i : Nat)
  deriving Repr, DecidableEq

/-- The stage indices whose external process was launched, in order. -/
def invokedIdxs (evs : List Event) : List Nat :=
  evs.filterMap fun e =>
    match e with
    | .invoked i => some i
    | _ => none

/-- Result of executing the stage sequence. -/
structure StagesOut where
  success : Bool
  fs : Fs
  events : List Event
  deriving Repr

/-- The filesystem effect of one stage: the orchestrator opens the
redirect target with mode `w` and the child writes its stdout there;
a tool-written output lands in the declared file likewise. -/
def stageWrite (env : Env) (s : Stage) (fs : Fs) : Fs :=
  match artifactPath s with
  | some p => setFile fs p (env.content s.idx)
  | none => fs

/-- The post-stage advisory log of `check_file_created`, when the
stage performs one (every stage except the gowitness stage). -/
def stageEvents (s : Stage) (fs : Fs) : List Event :=
  match s.checkFile with
  | some p => [Event.checkReport s.idx (check_file_created fs p)]
  | none => []

/-- Run the stage list in order, fail-fast on a non-zero exit status
(the `if not success: return False` pattern of `run_recon`). -/
def goStages (env : Env) : List Stage → Fs → StagesOut
  | [], fs => ⟨true, fs, []⟩
  | s :: rest, fs =>
    let fs' := stageWrite env s fs
    if env.exitCode s.idx = 0 then
      let r := goStages env rest fs'
      ⟨r.success, r.fs, Event.invoked s.idx :: (stageEvents s fs' ++ r.events)⟩
    else
      ⟨false, fs', [Event.invoked s.idx, Event.stageError s.idx]⟩

/-- `ReconPipeline.check_tools`. -/
def check_tools (env : Env) : Bool := required_tools.all env.onPath

/-- Result of `run_recon`, including the directories created by
`create_directories`. -/
structure RunOut where
  success : Bool
  fs : Fs
  events : List Event
  dirs : List String
  deriving Repr

/-- `ReconPipeline.run_recon`: pre-flight tool check, directory
creation, then the 21 stages. -/
def run_recon (t : String) (env : Env) (fs : Fs) : RunOut :=
  if check_tools env then
    if env.mkdirOk then
      let r := goStages env (stages t) fs
      ⟨r.success, r.fs, r.events, ["output", "screenshots", "output/js_out"]⟩
    else ⟨false, fs, [], []⟩
  else ⟨false, fs, [], []⟩

/-- `main` of `recon.py`: validate that the target contains a `.`,
else `sys.exit(1)` before the pipeline is run; afterwards exit 0 on
success and 1 on failure.  Returns the process exit status paired
with the run's observable outcome. -/
def main_recon (t : String) (env : Env) (fs : Fs) : Nat × RunOut :=
  if containsDot t then
    let r := run_recon t env fs
    (if r.success then 0 else 1, r)
  else
    (1, ⟨false, fs, [], []⟩)

/-! ## Installer model (`install.py`) -/

/-- A command line (argv). -/
abbrev Cmd : Type := List String

/-- Opaque behaviour of the outside world for the installer: exit
status, stdout and stderr per command, the two system-identity files,
the effective uid, `shutil.which` resolution, and `mkdir` success. -/
structure IEnv where
  exit : Cmd → Nat
  out : Cmd → String
  err : Cmd → String
  osRelease : Option String
  etcIssue : Option String
  euid : Nat
  onPath : String → Bool
  mkdirOk : Bool

/-- `ReconInstaller.run_command`.  With `check = true`, a non-zero
exit raises `CalledProcessError`, caught as `(False, stderr)`; with
`check = false` no exception is possible and the result is always
`(True, stdout)` regardless of the exit status. -/
def run_command (env : IEnv) (cmd : Cmd) (check : Bool) : Bool × String :=
  if check && !(env.exit cmd == 0) then (false, env.err cmd)
  else (true, env.out cmd)

/-- The `go_tools` static table of `ReconInstaller.__init__`. -/
def go_tools : List (String × String) :=
  [ ("subfinder", "github.com/projectdiscovery/subfinder/v2/cmd/subfinder@latest"),
    ("amass", "github.com/owasp-amass/amass/v4/...@latest"),
    ("dnsx", "github.com/projectdiscovery/dnsx/cmd/dnsx@latest"),
    ("naabu", "github.com/projectdiscovery/naabu/v2/cmd/naabu@latest"),
    ("httpx", "github.com/projectdiscovery/httpx/cmd/httpx@latest"),
    ("nuclei", "github.com/projectdiscovery/nuclei/v3/cmd/nuclei@latest"),
    ("gau", "github.com/lc/gau/v2/cmd/gau@latest"),
    ("unfurl", "github.com/tomnomnom/unfurl@latest"),
    ("gowitness", "github.com/jaeles-project/gowitness@latest") ]

/-- The `apt_packages` static table of `ReconInstaller.__init__`. -/
def apt_packages : List String :=
  ["golang-go", "git", "curl", "jq", "python3-pip", "chromium",
   "build-essential", "pkg-config"]

/-- The candidate version flags of `get_tool_version`, in order. -/
def version_flags : List String := ["--version", "-version", "-v", "version"]

/-- The version-number extraction of `get_tool_version` applied to an
accepted (non-empty) output: split the stripped output into lines;
on the first line containing `version` (case-insensitive) or a
literal `v` that also matches the regex `v?\d+\.\d+\.?\d*`, return
the match; otherwise return the whole stripped output, truncated to
50 characters with an ellipsis appended when longer. -/
def matchNumTail (s : List Char) : Option (List Char) :=
  let t1 := s.span Char.isDigit
  if t1.1.isEmpty then none
  else
    match t1.2 with
    | '.' :: r2 =>
      let t2 := r2.span Char.isDigit
      if t2.1.isEmpty then none
      else
        match t2.2 with
        | '.' :: r4 => some (t1.1 ++ '.' :: t2.1 ++ '.' :: (r4.span Char.isDigit).1)
        | _ => some (t1.1 ++ '.' :: t2.1)
    | _ => none

/-- Attempt the regex `v?\d+\.\d+\.?\d*` at the head of `s`.  (If a
leading `v` is present but no number follows, the `v?` branch with
an empty `v` also fails, since `v` is not a digit.) -/
def matchVerAt (s : List Char) : Option (List Char) :=
  match s with
  | 'v' :: rest => (matchNumTail rest).map (fun m => 'v' :: m)
  | _ => matchNumTail s

/-- `re.search` of the version regex: leftmost match wins. -/
def regexFindVer : List Char → Option (List Char)
  | [] => none
  | c :: rest =>
    match matchVerAt (c :: rest) with
    | some m => some m
    | none => regexFindVer rest

/-- The per-line loop of `get_tool_version`: the first line that
contains `version` (lowercased) or a literal `v` and yields a regex
match is returned; lines failing either test are skipped. -/
def findLineVersion : List (List Char) → Option (List Char)
  | [] => none
  | line :: rest =>
    if lcContainsSub (lcToLower line) "version".data || lcContainsSub line "v".data then
      match regexFindVer line with
      | some m => some m
      | none => findLineVersion rest
    else findLineVersion rest

/-- What `get_tool_version` returns for the accepted flag's output. -/
def extractVersionText (output : String) : String :=
  let s := lcStrip output.data
  match findLineVersion (lcSplitCh '\n' s) with
  | some v => String.mk v
  | none => String.mk (lcTrunc50 s)

/-- The flag loop of `get_tool_version`, also recording the probe
commands it executes (`run_command` with `check=False`). -/
def try_version_flags (env : IEnv) (tool : String) : List String → Option String × List Cmd
  | [] => (none, [])
  | flag :: rest =>
    let c := [tool, flag]
    let r := run_command env c false
    if r.1 && !(lcStrip r.2.data).isEmpty then
      (some (extractVersionText r.2), [c])
    else
      let t := try_version_flags env tool rest
      (t.1, c :: t.2)

/-- `ReconInstaller.get_tool_version` with its executed commands. -/
def get_tool_version_run (env : IEnv) (tool : String) : Option String × List Cmd :=
  try_version_flags env tool version_flags

/-- `ReconInstaller.get_tool_version`. -/
def get_tool_version (env : IEnv) (tool : String) : Option String :=
  (get_tool_version_run env tool).1

/-- `ReconInstaller.check_apt_package_installed`: `dpkg -l` probe with
`check=False`, then a substring test on the captured stdout. -/
def check_apt_package_installed (env : IEnv) (pkg : String) : Bool :=
  let r := run_command env ["dpkg", "-l", pkg] false
  r.1 && lcContainsSub r.2.data pkg.data

/-- `ReconInstaller.update_system_packages`: `apt update` then
`apt upgrade -y`, fail-fast. -/
def update_system_packages (env : IEnv) : Bool × List Cmd :=
  let c1 : Cmd := ["apt", "update"]
  if env.exit c1 == 0 then
    let c2 : Cmd := ["apt", "upgrade", "-y"]
    if env.exit c2 == 0 then (true, [c1, c2]) else (false, [c1, c2])
  else (false, [c1])

/-- `ReconInstaller.install_apt_packages`: probe each package, then
install only the missing ones (no command at all when none are). -/
def install_apt_packages (env : IEnv) : Bool × List Cmd :=
  let probes := apt_packages.map (fun p => ["dpkg", "-l", p])
  let missing := apt_packages.filter (fun p => !(check_apt_package_installed env p))
  if missing.isEmpty then (true, probes)
  else
    let c : Cmd := ["apt", "install", "-y"] ++ missing
    (env.exit c == 0, probes ++ [c])

/-- `ReconInstaller.force_install_apt_packages`: reinstall all 8. -/
def force_install_apt_packages (env : IEnv) : Bool × List Cmd :=
  let c : Cmd := ["apt", "install", "-y", "--reinstall"] ++ apt_packages
  (env.exit c == 0, [c])

/-- `ReconInstaller.setup_go_environment`: fails only when `go` is not
on the PATH; the `go version` probe and the PATH warning are
non-fatal, and the `~/go` directory creation is not traced. -/
def setup_go_environment (env : IEnv) : Bool × List Cmd :=
  if env.onPath "go" then (true, [["go", "version"]]) else (false, [])

/-- `ReconInstaller.install_go_tools`, fold over the tool table:
probe the version first and skip the tool when a version is found;
otherwise `go install` it (fatal on failure) and re-probe to verify. -/
def install_go_tools_go (env : IEnv) : List (String × String) → Bool × List Cmd
  | [] => (true, [])
  | (name, locator) :: rest =>
    let probe := get_tool_version_run env name
    match probe.1 with
    | some _ =>
      let r := install_go_tools_go env rest
      (r.1, probe.2 ++ r.2)
    | none =>
      let c : Cmd := ["go", "install", "-v", locator]
      if env.exit c == 0 then
        let verify := get_tool_version_run env name
        let r := install_go_tools_go env rest
        (r.1, probe.2 ++ [c] ++ verify.2 ++ r.2)
      else (false, probe.2 ++ [c])

/-- `ReconInstaller.install_go_tools`. -/
def install_go_tools (env : IEnv) : Bool × List Cmd :=
  install_go_tools_go env go_tools

/-- `ReconInstaller.force_install_go_tools`, fold over the tool
table: `go install` every tool unconditionally, then verify. -/
def force_install_go_tools_go (env : IEnv) : List (String × String) → Bool × List Cmd
  | [] => (true, [])
  | (name, locator) :: rest =>
    let c : Cmd := ["go", "install", "-v", locator]
    if env.exit c == 0 then
      let verify := get_tool_version_run env name
      let r := force_install_go_tools_go env rest
      (r.1, [c] ++ verify.2 ++ r.2)
    else (false, [c])

/-- `ReconInstaller.force_install_go_tools`. -/
def force_install_go_tools (env : IEnv) : Bool × List Cmd :=
  force_install_go_tools_go env go_tools

/-- `ReconInstaller.update_nuclei_templates`. -/
def update_nuclei_templates (env : IEnv) : Bool × List Cmd :=
  let c : Cmd := ["nuclei", "-update-templates"]
  (env.exit c == 0, [c])

/-- `ReconInstaller.create_directories` (runs no subprocess). -/
def installer_create_directories (env : IEnv) : Bool × List Cmd :=
  (env.mkdirOk, [])

/-- The go-tool half of `verify_installations`: every tool must
report a version for the step to succeed. -/
def verify_go (env : IEnv) : List (String × String) → Bool × List Cmd
  | [] => (true, [])
  | (name, _) :: rest =>
    let probe := get_tool_version_run env name
    let r := verify_go env rest
    (probe.1.isSome && r.1, probe.2 ++ r.2)

/-- The other-tool half of `verify_installations`: probed only when
present on the PATH, and never affecting the result. -/
def verify_other (env : IEnv) : List String → List Cmd
  | [] => []
  | tool :: rest =>
    (if env.onPath tool then (get_tool_version_run env tool).2 else [])
      ++ verify_other env rest

/-- `ReconInstaller.verify_installations`. -/
def verify_installations (env : IEnv) : Bool × List Cmd :=
  let g := verify_go env go_tools
  (g.1, g.2 ++ verify_other env ["ffuf", "curl", "jq", "git"])

/-- `ReconInstaller.check_kali_linux`: `/etc/os-release` first, then
`/etc/issue`; each checked for the substring `kali` after
lowercasing; a missing file falls through to the next check. -/
def check_kali_linux (env : IEnv) : Bool :=
  (match env.osRelease with
   | some c => lcContainsSub (lcToLower c.data) "kali".data
   | none => false) ||
  (match env.etcIssue with
   | some c => lcContainsSub (lcToLower c.data) "kali".data
   | none => false)

/-- The step sequence assembled by `ReconInstaller.install`,
selecting the force or normal variants per the flag. -/
def installSteps (force : Bool) : List (IEnv → Bool × List Cmd) :=
  [update_system_packages,
   if force then force_install_apt_packages else install_apt_packages,
   setup_go_environment,
   if force then force_install_go_tools else install_go_tools,
   update_nuclei_templates,
   installer_create_directories,
   verify_installations]

/-- Run the steps in order, fail-fast, accumulating the commands. -/
def runSteps (env : IEnv) : List (IEnv → Bool × List Cmd) → Bool × List Cmd
  | [] => (true, [])
  | f :: rest =>
    let s := f env
    if s.1 then
      let r := runSteps env rest
      (r.1, s.2 ++ r.2)
    else (false, s.2)

/-- `ReconInstaller.install`: the Kali-identity check and the
root-privilege check both precede every step; either failing aborts
before any command is run. -/
def install (env : IEnv) (force : Bool) : Bool × List Cmd :=
  if check_kali_linux env then
    if env.euid == 0 then runSteps env (installSteps force)
    else (false, [])
  else (false, [])

/-- `main` of `install.py`: exit 0 on success, 1 otherwise. -/
def main_install (env : IEnv) (force : Bool) : Nat :=
  if (install env force).1 then 0 else 1

/-- Does a command start with `x install`? -/
def isInstallCmdOf (x : String) (c : Cmd) : Bool := c.take 2 == [x, "install"]

/-- Is a command an `apt install ...` mutation? -/
def isAptInstallCmd : Cmd → Bool := isInstallCmdOf "apt"

/-- Is a command a `go install ...` mutation? -/
def isGoInstallCmd : Cmd → Bool := isInstallCmdOf "go"

/-! ## Derived descriptions used in the claim statements -/

/-- The stage indices `run_recon` launches, stage by stage: every
stage up to and including the first one whose process exits non-zero. -/
def expectedInvoked (env : Env) : List Stage → List Nat
  | [] => []
  | s :: rest =>
    if env.exitCode s.idx = 0 then s.idx :: expectedInvoked env rest
    else [s.idx]

/-- The files a fully successful run creates, in creation order:
the 20 numbered artifacts in `output/` and the gowitness JSON
manifest in `screenshots/`. -/
def producedFiles : List String :=
  ["output/01_subfinder.txt", "output/02_amass_passive.txt",
   "output/03_subs_uniq.txt", "output/04_dnsx_resolved.txt",
   "output/05_hosts_resolved.txt", "output/06_naabu_top1k.txt",
   "output/07_naabu_full.txt", "output/08_open_ports.txt",
   "output/09_httpx_subs.txt", "output/10_httpx_ports.txt",
   "output/11_live_urls.txt", "screenshots/gowitness.json",
   "output/12_cname_candidates.txt", "output/13_nuclei_web.txt",
   "output/14_nuclei_takeover.txt", "output/15_gau.txt",
   "output/16_params.txt", "output/17_ffuf_dirs.txt",
   "output/18_ffuf_params.txt", "output/19_js_endpoints.txt",
   "output/20_robots.txt"]

/-- The path list of a filesystem after a write: unchanged when the
path already exists, else the path is appended. -/
def addKey (ks : List String) (p : String) : List String :=
  if ks.contains p then ks else ks ++ [p]

/-- The paths present after running a stage list (ignoring contents):
each stage adds its declared artifact path. -/
def stageKeys (l : List Stage) (ks : List String) : List String :=
  l.foldl
    (fun ks s =>
      match artifactPath s with
      | some p => addKey ks p
      | none => ks)
    ks

/-- What C4's wording predicts for the fallback branch: the first
line of the (stripped) output. -/
def spec_first_line (s : String) : String :=
  String.mk ((lcSplitCh '\n' (lcStrip s.data)).headD [])

/-! ## Concrete environments for witnesses and counterexamples -/

/-- All 21 stages succeed and write `"x"`; tools present. -/
def envAllOk : Env := ⟨fun _ => 0, fun _ => "x", fun _ => true, true⟩

/-- Stage 3 fails, all others succeed writing `"y"`. -/
def envFail3 : Env := ⟨fun i => if i = 3 then 1 else 0, fun _ => "y", fun _ => true, true⟩

/-- Installer world: neither identity file exists. -/
def iEnvNoKali : IEnv := ⟨fun _ => 0, fun _ => "", fun _ => "", none, none, 0, fun _ => false, true⟩

/-- Installer world: Kali host, root, every command succeeds with
empty output (all presence probes fail). -/
def iEnvKali : IEnv :=
  ⟨fun _ => 0, fun _ => "", fun _ => "", some "ID=kali", none, 0, fun _ => true, true⟩

/-- Shared stdout table: `mytool --version` prints two lines with no
version pattern on either. -/
def mlOut : Cmd → String := fun c => if c = ["mytool", "--version"] then "abc\ndef" else ""

/-- Installer world whose `mytool --version` output is `mlOut`. -/
def iEnvML : IEnv := ⟨fun _ => 0, mlOut, fun _ => "", none, none, 0, fun _ => false, true⟩

/-- Same stdout as `iEnvML` but every command exits with status 1. -/
def iEnvMLFail : IEnv := ⟨fun _ => 1, mlOut, fun _ => "", none, none, 0, fun _ => false, true⟩

/-- Installer world where `verytool --version` reports `v1.2.3`. -/
def iEnvVer : IEnv :=
  ⟨fun _ => 0,
   fun c => if c = ["verytool", "--version"] then "verytool version v1.2.3 linux" else "",
   fun _ => "", none, none, 0, fun _ => false, true⟩

/-! ## Filesystem lemmas -/

lemma getFile_setFile_self (fs : Fs) (p c : String) :
    getFile (setFile fs p c) p = some c := by
  induction fs with
  | nil => simp [setFile, getFile]
  | cons e rest ih =>
    obtain ⟨q, d⟩ := e
    by_cases h : q = p
    · simp [setFile, getFile, h]
    · simp [setFile, getFile, h, ih]

lemma getFile_setFile_ne (fs : Fs) (p q c : String) (h : q ≠ p) :
    getFile (setFile fs q c) p = getFile fs p := by
  induction fs with
  | nil => simp [setFile, getFile, h]
  | cons e rest ih =>
    obtain ⟨r, d⟩ := e
    by_cases hr : r = q
    · subst hr
      simp [setFile, getFile, h]
    · simp [setFile, getFile, hr, ih]

lemma check_file_created_setFile (fs : Fs) (p c : String) :
    check_file_created (setFile fs p c) p = strNonEmpty c := by
  simp [check_file_created, getFile_setFile_self]

/-- A stage whose artifact is not `q` leaves `q` untouched. -/
lemma stageWrite_other (env : Env) (s : Stage) (fs : Fs) (q : String)
    (h : artifactPath s ≠ some q) :
    getFile (stageWrite env s fs) q = getFile fs q := by
  unfold stageWrite
  cases hap : artifactPath s with
  | none => rfl
  | some p =>
    have hpq : p ≠ q := by
      intro he
      exact h (by rw [hap, he])
    exact getFile_setFile_ne fs q p _ hpq

/-! ## Stage-runner lemmas -/

lemma invokedIdxs_append (xs ys : List Event) :
    invokedIdxs (xs ++ ys) = invokedIdxs xs ++ invokedIdxs ys := by
  simp [invokedIdxs]

lemma invokedIdxs_stageEvents (s : Stage) (fs : Fs) :
    invokedIdxs (stageEvents s fs) = [] := by
  unfold stageEvents
  cases s.checkFile <;> simp [invokedIdxs]

lemma invokedIdxs_cons_invoked (i : Nat) (xs : List Event) :
    invokedIdxs (Event.invoked i :: xs) = i :: invokedIdxs xs := rfl

/-- The run succeeds exactly when every stage's process exits zero. -/
lemma goStages_success_iff (l : List Stage) (env : Env) (fs : Fs) :
    (goStages env l fs).success = true ↔ ∀ s ∈ l, env.exitCode s.idx = 0 := by
  induction l generalizing fs with
  | nil => simp [goStages]
  | cons s rest ih =>
    by_cases h : env.exitCode s.idx = 0
    · simp [goStages, h, ih]
    · simp [goStages, h]

/-- The launched stage indices are the prefix up to the first failure. -/
lemma goStages_invoked (l : List Stage) (env : Env) (fs : Fs) :
    invokedIdxs (goStages env l fs).events = expectedInvoked env l := by
  induction l generalizing fs with
  | nil => simp [goStages, expectedInvoked, invokedIdxs]
  | cons s rest ih =>
    by_cases h : env.exitCode s.idx = 0
    · simp only [goStages, h, reduceIte, expectedInvoked]
      rw [invokedIdxs_cons_invoked, invokedIdxs_append, invokedIdxs_stageEvents, ih]
      simp
    · simp only [goStages, h, reduceIte, expectedInvoked, if_neg h]
      simp [invokedIdxs]

/-- With every stage succeeding, all stages are launched in order. -/
lemma expectedInvoked_all_zero (l : List Stage) (env : Env)
    (h : ∀ s ∈ l, env.exitCode s.idx = 0) :
    expectedInvoked env l = l.map Stage.idx := by
  induction l with
  | nil => rfl
  | cons s rest ih =>
    have hs := h s (List.mem_cons_self s rest)
    simp [expectedInvoked, hs, ih fun t ht => h t (List.mem_cons_of_mem s ht)]

/-- When stage indices are consecutive from `a`, the launch list stops
exactly at the first failing index `k`. -/
lemma expectedInvoked_first_fail (l : List Stage) (a k : Nat) (env : Env)
    (hmap : l.map Stage.idx = List.range' a l.length)
    (hak : a ≤ k) (hkl : k < a + l.length)
    (hpre : ∀ j, a ≤ j → j < k → env.exitCode j = 0)
    (hfail : env.exitCode k ≠ 0) :
    expectedInvoked env l = List.range' a (k + 1 - a) := by
  induction l generalizing a with
  | nil => simp at hkl; omega
  | cons s rest ih =>
    have hm : s.idx = a ∧ rest.map Stage.idx = List.range' (a + 1) rest.length := by
      simpa [List.range'] using hmap
    by_cases hk : a = k
    · have h0 : ¬ env.exitCode s.idx = 0 := by rw [hm.1, hk]; exact hfail
      have hr : k + 1 - a = 1 := by omega
      have hstep : expectedInvoked env (s :: rest) = [s.idx] := by
        simp only [expectedInvoked, if_neg h0]
      rw [hstep, hm.1, hk]
      have hr' : k + 1 - k = 1 := by omega
      rw [hr']
      simp [List.range']
    · have hlt : a < k := by omega
      have h0 : env.exitCode s.idx = 0 := by
        rw [hm.1]; exact hpre a le_rfl hlt
      have hkl' : k < (a + 1) + rest.length := by
        simp only [List.length_cons] at hkl; omega
      have hrest := ih (a + 1) hm.2 (by omega) hkl'
        (fun j hj1 hj2 => hpre j (by omega) hj2)
      have hr : k + 1 - a = (k + 1 - (a + 1)) + 1 := by omega
      have hstep : expectedInvoked env (s :: rest) = s.idx :: expectedInvoked env rest := by
        simp only [expectedInvoked, if_pos h0]
      rw [hstep, hm.1, hrest, hr]
      simp [List.range']

/-- Stages whose artifact is not `p` leave `p` untouched. -/
lemma goStages_fs_preserve (l : List Stage) (env : Env) (fs : Fs) (p : String)
    (h : ∀ s ∈ l, artifactPath s ≠ some p) :
    getFile (goStages env l fs).fs p = getFile fs p := by
  induction l generalizing fs with
  | nil => simp [goStages]
  | cons s rest ih =>
    have hs := h s (List.mem_cons_self s rest)
    have hw := stageWrite_other env s fs p hs
    by_cases h0 : env.exitCode s.idx = 0
    · simp only [goStages, h0, if_pos]
      rw [ih _ fun t ht => h t (List.mem_cons_of_mem s ht), hw]
    · simp only [goStages, h0, if_neg, ite_false]
      exact hw

/-- An executed stage's artifact keeps the content that stage wrote,
through to the end of the run (later stages only write elsewhere). -/
lemma goStages_fs_executed (l : List Stage) (env : Env) (fs : Fs)
    (i : Nat) (hi : i < l.length)
    (hnd : (l.map artifactPath).Nodup)
    (hpre : ∀ m, (hm : m < i) → env.exitCode ((l.get ⟨m, hm.trans hi⟩).idx) = 0) :
    ∀ p, artifactPath (l.get ⟨i, hi⟩) = some p →
      getFile (goStages env l fs).fs p = some (env.content ((l.get ⟨i, hi⟩).idx)) := by
  induction l generalizing fs i with
  | nil => exact absurd hi (by simp)
  | cons s rest ih =>
    intro p hap
    match i with
    | 0 =>
      simp only [List.get] at hap ⊢
      have hw : getFile (stageWrite env s fs) p = some (env.content s.idx) := by
        unfold stageWrite
        rw [hap]
        exact getFile_setFile_self fs p _
      by_cases h0 : env.exitCode s.idx = 0
      · simp only [goStages, h0, if_pos]
        have hrest : ∀ t ∈ rest, artifactPath t ≠ some p := by
          intro t ht he
          have : artifactPath s ∈ rest.map artifactPath := by
            rw [hap, ← he]
            exact List.mem_map_of_mem artifactPath ht
          exact (List.nodup_cons.mp hnd).1 this
        rw [goStages_fs_preserve rest env _ p hrest, hw]
      · simp only [goStages, h0, if_neg, ite_false]
        exact hw
    | Nat.succ m =>
      have h0 : env.exitCode s.idx = 0 := hpre 0 (Nat.succ_pos m)
      simp only [List.get] at hap ⊢
      simp only [goStages, h0, if_pos]
      exact ih (stageWrite env s fs) m (by simpa using hi) (List.Nodup.of_cons hnd)
        (fun m' hm' => hpre (m' + 1) (by omega)) p hap

/-- An executed, exit-zero stage that declares a post-stage check on
its own artifact emits the advisory report, whose flag is exactly the
non-emptiness of the content the stage wrote. -/
lemma goStages_checkReport_mem (l : List Stage) (env : Env) (fs : Fs)
    (i : Nat) (hi : i < l.length)
    (hpre : ∀ m, (hm : m < i) → env.exitCode ((l.get ⟨m, hm.trans hi⟩).idx) = 0)
    (hzero : env.exitCode ((l.get ⟨i, hi⟩).idx) = 0)
    (p : String)
    (hcf : (l.get ⟨i, hi⟩).checkFile = some p)
    (hap : artifactPath (l.get ⟨i, hi⟩) = some p) :
    Event.checkReport ((l.get ⟨i, hi⟩).idx)
        (strNonEmpty (env.content ((l.get ⟨i, hi⟩).idx)))
      ∈ (goStages env l fs).events := by
  induction l generalizing fs i with
  | nil => exact absurd hi (by simp)
  | cons s rest ih =>
    match i with
    | 0 =>
      simp only [List.get] at hcf hap hzero ⊢
      simp only [goStages, hzero, if_pos]
      apply List.mem_cons_of_mem
      apply List.mem_append_left
      have hw : stageWrite env s fs = setFile fs p (env.content s.idx) := by
        unfold stageWrite
        rw [hap]
      simp [stageEvents, hcf, hw, check_file_created_setFile]
    | Nat.succ m =>
      have h0 : env.exitCode s.idx = 0 := hpre 0 (Nat.succ_pos m)
      simp only [List.get] at hcf hap hzero ⊢
      simp only [goStages, h0, if_pos]
      apply List.mem_cons_of_mem
      apply List.mem_append_right
      exact ih (stageWrite env s fs) m (by simpa using hi)
        (fun m' hm' => hpre (m' + 1) (by omega)) hzero hcf hap

/-- Control flow depends only on the exit statuses: the success flag
and the launched-stage list are unchanged under any change of file
contents (and hence of the advisory check results). -/
lemma goStages_control_flow (l : List Stage) (env env' : Env) (fs fs' : Fs)
    (hx : env.exitCode = env'.exitCode) :
    (goStages env l fs).success = (goStages env' l fs').success ∧
    invokedIdxs (goStages env l fs).events = invokedIdxs (goStages env' l fs').events := by
  induction l generalizing fs fs' with
  | nil => simp [goStages]
  | cons s rest ih =>
    by_cases h0 : env.exitCode s.idx = 0
    · have h0' : env'.exitCode s.idx = 0 := by rw [← hx]; exact h0
      have hih := ih (stageWrite env s fs) (stageWrite env' s fs')
      constructor
      · simp only [goStages, if_pos h0, if_pos h0']
        exact hih.1
      · simp only [goStages, if_pos h0, if_pos h0']
        rw [invokedIdxs_cons_invoked, invokedIdxs_cons_invoked,
          invokedIdxs_append, invokedIdxs_append,
          invokedIdxs_stageEvents, invokedIdxs_stageEvents, hih.2]
    · have h0' : ¬ env'.exitCode s.idx = 0 := by rw [← hx]; exact h0
      simp [goStages, if_neg h0, if_neg h0', invokedIdxs]

/-- Writing a file affects the path list as `addKey` describes. -/
lemma setFile_keys (fs : Fs) (p c : String) :
    (setFile fs p c).map Prod.fst = addKey (fs.map Prod.fst) p := by
  induction fs with
  | nil => simp [setFile, addKey]
  | cons e rest ih =>
    obtain ⟨q, d⟩ := e
    by_cases h : q = p
    · subst h
      simp [setFile, addKey]
    · have hpq : p ≠ q := Ne.symm h
      by_cases hc : p ∈ rest.map Prod.fst
      · simp [setFile, h, addKey, hpq, hc, ih]
      · simp [setFile, h, addKey, hpq, hc, ih]

/-- Under all-zero exits, the final path list is `stageKeys`. -/
lemma goStages_keys (l : List Stage) (env : Env) (fs : Fs)
    (h : ∀ s ∈ l, env.exitCode s.idx = 0) :
    (goStages env l fs).fs.map Prod.fst = stageKeys l (fs.map Prod.fst) := by
  induction l generalizing fs with
  | nil => simp [goStages, stageKeys]
  | cons s rest ih =>
    have h0 := h s (List.mem_cons_self s rest)
    have hrest := fun t ht => h t (List.mem_cons_of_mem s ht)
    simp only [goStages, if_pos h0]
    rw [ih _ hrest]
    unfold stageKeys
    rw [List.foldl_cons]
    congr 1
    unfold stageWrite
    cases hap : artifactPath s with
    | none => rfl
    | some p => simp [setFile_keys]

/-! ## Concrete facts about the stage table -/

lemma stages_length (t : String) : (stages t).length = 21 := rfl

lemma stages_map_idx (t : String) :
    (stages t).map Stage.idx = List.range' 1 21 := rfl

lemma stages_map_artifact (t : String) :
    (stages t).map artifactPath = (List.range' 1 21).map artifactOfIdx := rfl

lemma stages_artifact_nodup (t : String) :
    ((stages t).map artifactPath).Nodup := by
  rw [stages_map_artifact]
  decide

lemma stages_get_idx (t : String) (i : Nat) (hi : i < (stages t).length) :
    ((stages t).get ⟨i, hi⟩).idx = i + 1 := by
  have hb : i < 21 := by simpa [stages_length] using hi
  interval_cases i <;> rfl

lemma stages_get_artifact (t : String) (i : Nat) (hi : i < (stages t).length) :
    artifactPath ((stages t).get ⟨i, hi⟩) = artifactOfIdx (i + 1) := by
  have hb : i < 21 := by simpa [stages_length] using hi
  interval_cases i <;> rfl

/-- Every stage that declares a post-stage check checks exactly its
own declared artifact path. -/
lemma stages_check_eq_artifact (t : String) (i : Nat) (hi : i < (stages t).length)
    (hcf : ((stages t).get ⟨i, hi⟩).checkFile.isSome = true) :
    ((stages t).get ⟨i, hi⟩).checkFile = artifactPath ((stages t).get ⟨i, hi⟩) := by
  have hb : i < 21 := by simpa [stages_length] using hi
  interval_cases i <;>
    first
      | rfl
      | (have hnone : ((stages t).get ⟨11, hi⟩).checkFile = none := rfl
         rw [hnone] at hcf
         simp at hcf)

/-! ## Installer lemmas -/

lemma isInstallCmdOf_two (x a b : String) (rest : List String) :
    isInstallCmdOf x (a :: b :: rest) = ((a == x) && (b == "install")) := by
  simp [isInstallCmdOf, List.take]

/-- A version probe `[tool, flag]` is never an install mutation when
the flag is not literally `install`. -/
lemma try_version_flags_filter (env : IEnv) (tool x : String) :
    ∀ flags, (∀ f ∈ flags, (f == "install") = false) →
      ((try_version_flags env tool flags).2.filter (isInstallCmdOf x)) = [] := by
  intro flags
  induction flags with
  | nil => intro _; simp [try_version_flags]
  | cons f rest ih =>
    intro h
    have hf := h f (List.mem_cons_self f rest)
    have hcmd : isInstallCmdOf x [tool, f] = false := by
      rw [isInstallCmdOf_two, hf]
      simp
    by_cases hacc : (run_command env [tool, f] false).1 &&
        !(lcStrip (run_command env [tool, f] false).2.data).isEmpty
    · simp only [try_version_flags, hacc, if_pos]
      simp [List.filter, hcmd]
    · simp only [try_version_flags, hacc]
      simp only [Bool.false_eq_true, if_false]
      simp [List.filter, hcmd, ih fun g hg => h g (List.mem_cons_of_mem f hg)]

lemma version_flags_no_install : ∀ f ∈ version_flags, (f == "install") = false := by
  decide

lemma get_tool_version_run_filter (env : IEnv) (tool x : String) :
    ((get_tool_version_run env tool).2.filter (isInstallCmdOf x)) = [] :=
  try_version_flags_filter env tool x version_flags version_flags_no_install

/-- The version probes only read stdout: with `check=False` the exit
status never matters. -/
lemma try_version_flags_out_only (env env' : IEnv) (tool : String)
    (h : env.out = env'.out) :
    ∀ flags, try_version_flags env tool flags = try_version_flags env' tool flags := by
  intro flags
  induction flags with
  | nil => rfl
  | cons f rest ih =>
    simp only [try_version_flags, run_command, Bool.false_and,
      Bool.false_eq_true, if_false, h, ih]

/-- The dpkg presence probes are never install mutations. -/
lemma dpkg_probes_filter (ps : List String) (x : String) :
    ((ps.map (fun p => ["dpkg", "-l", p])).filter (isInstallCmdOf x)) = [] := by
  induction ps with
  | nil => rfl
  | cons p rest ih =>
    have hcmd : isInstallCmdOf x ["dpkg", "-l", p] = false := by
      rw [isInstallCmdOf_two]
      simp
    simp [List.filter, hcmd, ih]

/-- `install_go_tools` succeeds under all-zero exits, and its install
mutations are exactly the tools whose version probe found nothing. -/
lemma install_go_tools_go_spec (env : IEnv) (hExit : ∀ c, env.exit c = 0) :
    ∀ ts : List (String × String),
      (install_go_tools_go env ts).1 = true ∧
      ((install_go_tools_go env ts).2.filter (isInstallCmdOf "go")) =
        (ts.filter fun tl => (get_tool_version env tl.1).isNone).map
          (fun tl => ["go", "install", "-v", tl.2]) ∧
      ((install_go_tools_go env ts).2.filter (isInstallCmdOf "apt")) = [] := by
  intro ts
  induction ts with
  | nil => simp [install_go_tools_go]
  | cons tl rest ih =>
    obtain ⟨name, locator⟩ := tl
    have hgo : isInstallCmdOf "go" ["go", "install", "-v", locator] = true := by
      rw [isInstallCmdOf_two]; rfl
    have hapt : isInstallCmdOf "apt" ["go", "install", "-v", locator] = false := by
      rw [isInstallCmdOf_two]; rfl
    have hprobe := fun x => get_tool_version_run_filter env name x
    cases hv : (get_tool_version_run env name).1 with
    | some v =>
      have hvn : (get_tool_version env name).isNone = false := by
        simp [get_tool_version, hv]
      simp only [install_go_tools_go, hv]
      refine ⟨ih.1, ?_, ?_⟩
      · rw [List.filter_append, hprobe "go", ih.2.1]
        simp [List.filter, hvn]
      · rw [List.filter_append, hprobe "apt", ih.2.2]
        rfl
    | none =>
      have hvn : (get_tool_version env name).isNone = true := by
        simp [get_tool_version, hv]
      have hc : (env.exit ["go", "install", "-v", locator] == 0) = true := by
        simp [hExit]
      simp only [install_go_tools_go, hv, hc, if_pos]
      refine ⟨ih.1, ?_, ?_⟩
      · simp only [List.filter_append, hprobe "go", ih.2.1]
        simp [List.filter, hgo, hvn]
      · simp only [List.filter_append, hprobe "apt", ih.2.2]
        simp [List.filter, hapt]

/-- `force_install_go_tools` requests a `go install` for every tool. -/
lemma force_install_go_tools_go_spec (env : IEnv) (hExit : ∀ c, env.exit c = 0) :
    ∀ ts : List (String × String),
      (force_install_go_tools_go env ts).1 = true ∧
      ((force_install_go_tools_go env ts).2.filter (isInstallCmdOf "go")) =
        ts.map (fun tl => ["go", "install", "-v", tl.2]) ∧
      ((force_install_go_tools_go env ts).2.filter (isInstallCmdOf "apt")) = [] := by
  intro ts
  induction ts with
  | nil => simp [force_install_go_tools_go]
  | cons tl rest ih =>
    obtain ⟨name, locator⟩ := tl
    have hgo : isInstallCmdOf "go" ["go", "install", "-v", locator] = true := by
      rw [isInstallCmdOf_two]; rfl
    have hapt : isInstallCmdOf "apt" ["go", "install", "-v", locator] = false := by
      rw [isInstallCmdOf_two]; rfl
    have hprobe := fun x => get_tool_version_run_filter env name x
    have hc : (env.exit ["go", "install", "-v", locator] == 0) = true := by
      simp [hExit]
    simp only [force_install_go_tools_go, hc, if_pos]
    refine ⟨ih.1, ?_, ?_⟩
    · rw [List.filter_append, List.filter_append, hprobe "go", ih.2.1]
      simp [List.filter_cons, hgo]
    · rw [List.filter_append, List.filter_append, hprobe "apt", ih.2.2]
      simp [List.filter_cons, hapt]

/-- The verification pass runs only version probes. -/
lemma verify_go_filter (env : IEnv) (x : String) :
    ∀ ts : List (String × String),
      ((verify_go env ts).2.filter (isInstallCmdOf x)) = [] := by
  intro ts
  induction ts with
  | nil => rfl
  | cons tl rest ih =>
    obtain ⟨name, _⟩ := tl
    simp only [verify_go, List.filter_append,
      get_tool_version_run_filter env name x, ih]
    rfl

lemma verify_other_filter (env : IEnv) (x : String) :
    ∀ tools : List String,
      ((verify_other env tools).filter (isInstallCmdOf x)) = [] := by
  intro tools
  induction tools with
  | nil => rfl
  | cons tool rest ih =>
    by_cases h : env.onPath tool
    · simp only [verify_other, h, if_pos, List.filter_append,
        get_tool_version_run_filter env tool x, ih]
      rfl
    · simp only [verify_other, h, if_neg, ite_false, List.filter_append, ih]
      rfl

/-! ## Claim theorems -/

/-- C1: for every stage index `k` in 1..21, if stage `k`'s process
exits non-zero (and the stages before it succeeded so that stage `k`
is reached), the run exits with status 1, exactly stages 1..k are
launched — no stage with index above `k` — and every artifact written
by stages 1..k-1 still holds, at the end of the run, the content its
stage wrote. -/
theorem c1_fail_fast (t : String) (env : Env) (fs : Fs) (k : Nat)
    (hdot : containsDot t = true)
    (htools : check_tools env = true) (hmk : env.mkdirOk = true)
    (hk1 : 1 ≤ k) (hk2 : k ≤ 21)
    (hpre : ∀ j, 1 ≤ j → j < k → env.exitCode j = 0)
    (hfail : env.exitCode k ≠ 0) :
    (main_recon t env fs).1 = 1 ∧
    invokedIdxs (main_recon t env fs).2.events = List.range' 1 k ∧
    (∀ j, 1 ≤ j → j < k → ∀ p, artifactOfIdx j = some p →
      getFile (main_recon t env fs).2.fs p = some (env.content j)) := by
  have hsucc : (goStages env (stages t) fs).success = false := by
    have hk' : k ∈ List.range' 1 21 := List.mem_range'_1.2 ⟨hk1, by omega⟩
    rw [← stages_map_idx t] at hk'
    obtain ⟨s, hsmem, hsk⟩ := List.mem_map.1 hk'
    cases hb : (goStages env (stages t) fs).success with
    | false => rfl
    | true =>
      exact absurd (hsk ▸ (goStages_success_iff (stages t) env fs).1 hb s hsmem) hfail
  have hmain : main_recon t env fs =
      (if (goStages env (stages t) fs).success then 0 else 1,
       ⟨(goStages env (stages t) fs).success, (goStages env (stages t) fs).fs,
        (goStages env (stages t) fs).events,
        ["output", "screenshots", "output/js_out"]⟩) := by
    simp [main_recon, run_recon, hdot, htools, hmk]
  refine ⟨?_, ?_, ?_⟩
  · rw [hmain]
    simp [hsucc]
  · rw [hmain]
    show invokedIdxs (goStages env (stages t) fs).events = List.range' 1 k
    rw [goStages_invoked]
    have hres := expectedInvoked_first_fail (stages t) 1 k env
      (by rw [stages_map_idx, stages_length]) hk1
      (by rw [stages_length]; omega) (fun j hj1 hj2 => hpre j hj1 hj2) hfail
    rw [hres]
    congr 1
  · intro j hj1 hj2 p hp
    have hi : j - 1 < (stages t).length := by rw [stages_length]; omega
    have hj : j - 1 + 1 = j := by omega
    have hap : artifactPath ((stages t).get ⟨j - 1, hi⟩) = some p := by
      rw [stages_get_artifact, hj, hp]
    have hpre' : ∀ m, (hm : m < j - 1) →
        env.exitCode (((stages t).get ⟨m, hm.trans hi⟩).idx) = 0 := by
      intro m hm
      rw [stages_get_idx]
      exact hpre (m + 1) (by omega) (by omega)
    have hres := goStages_fs_executed (stages t) env fs (j - 1) hi
      (stages_artifact_nodup t) hpre' p hap
    rw [hmain]
    show getFile (goStages env (stages t) fs).fs p = some (env.content j)
    rw [hres, stages_get_idx, hj]

/-- C1 witness: target `example.com`, stage 3 failing, stages 1 and 2
succeeding: exit status 1, stages 1..3 launched, artifacts of stages
1 and 2 intact. -/
theorem c1_fail_fast_witness :
    (main_recon "example.com" envFail3 []).1 = 1 ∧
    invokedIdxs (main_recon "example.com" envFail3 []).2.events = List.range' 1 3 ∧
    (∀ j, 1 ≤ j → j < 3 → ∀ p, artifactOfIdx j = some p →
      getFile (main_recon "example.com" envFail3 []).2.fs p = some (envFail3.content j)) :=
  c1_fail_fast "example.com" envFail3 [] 3 (by decide) (by decide) rfl
    (by decide) (by decide)
    (by intro j h1 h2; interval_cases j <;> rfl) (by decide)

/-- C2: with the target valid and both preflight checks passing, the
runner's process exit status is 0 exactly when every one of the 21
stage processes exited with status 0. -/
theorem c2_exit_iff_all_zero (t : String) (env : Env) (fs : Fs)
    (hdot : containsDot t = true)
    (htools : check_tools env = true) (hmk : env.mkdirOk = true) :
    (main_recon t env fs).1 = 0 ↔ ∀ i, 1 ≤ i → i ≤ 21 → env.exitCode i = 0 := by
  have hmain : (main_recon t env fs).1 =
      if (goStages env (stages t) fs).success then 0 else 1 := by
    simp [main_recon, run_recon, hdot, htools, hmk]
  rw [hmain]
  have hiff := goStages_success_iff (stages t) env fs
  constructor
  · intro h0 i h1 h2
    have hs : (goStages env (stages t) fs).success = true := by
      cases hb : (goStages env (stages t) fs).success with
      | true => rfl
      | false => rw [hb] at h0; simp at h0
    have hall := hiff.1 hs
    have hk' : i ∈ List.range' 1 21 := List.mem_range'_1.2 ⟨h1, by omega⟩
    rw [← stages_map_idx t] at hk'
    obtain ⟨s, hsmem, hsk⟩ := List.mem_map.1 hk'
    exact hsk ▸ hall s hsmem
  · intro hall
    have hs : (goStages env (stages t) fs).success = true := by
      apply hiff.2
      intro s hsmem
      have hmem : s.idx ∈ (stages t).map Stage.idx := List.mem_map_of_mem _ hsmem
      rw [stages_map_idx] at hmem
      have hb := List.mem_range'_1.1 hmem
      exact hall s.idx hb.1 (by omega)
    rw [hs]
    simp

/-- C2 witness: with every stage exiting 0 the run exits 0. -/
theorem c2_exit_iff_all_zero_witness :
    (main_recon "example.com" envAllOk []).1 = 0 ↔
      ∀ i, 1 ≤ i → i ≤ 21 → envAllOk.exitCode i = 0 :=
  c2_exit_iff_all_zero "example.com" envAllOk [] (by decide) (by decide) rfl

/-- C7: a target without a `.` is rejected with exit status 1 before
any stage is launched or directory created (and the starting
filesystem is untouched); a target with a `.` passes straight to the
pipeline — the dot test is the only validation applied. -/
theorem c7_target_validation (t : String) (env : Env) (fs : Fs) :
    (containsDot t = false →
      (main_recon t env fs).1 = 1 ∧
      (main_recon t env fs).2.events = [] ∧
      (main_recon t env fs).2.dirs = [] ∧
      (main_recon t env fs).2.fs = fs) ∧
    (containsDot t = true →
      (main_recon t env fs).1 = if (run_recon t env fs).success then 0 else 1) := by
  constructor
  · intro h
    simp [main_recon, h]
  · intro h
    simp [main_recon, h]

/-- C7 witness: `localhost` has no dot and is rejected untouched. -/
theorem c7_target_validation_witness :
    (main_recon "localhost" envAllOk []).1 = 1 ∧
    (main_recon "localhost" envAllOk []).2.events = [] ∧
    (main_recon "localhost" envAllOk []).2.dirs = [] ∧
    (main_recon "localhost" envAllOk []).2.fs = [] :=
  (c7_target_validation "localhost" envAllOk []).1 (by decide)

/-- C10: the declared artifact paths of the 21 stages are pairwise
distinct; each stage's filesystem action touches only its own
declared output path; consequently an artifact produced by an
executed stage still holds, at the end of the run, exactly the
content that stage wrote — later stages never reopen, truncate or
delete it. -/
theorem c10_artifact_frame (t : String) :
    ((stages t).map artifactPath).Nodup ∧
    (∀ (env : Env) (s : Stage) (fs : Fs) (q : String),
      artifactPath s ≠ some q →
      getFile (stageWrite env s fs) q = getFile fs q) ∧
    (∀ (env : Env) (fs : Fs) (i : Nat) (hi : i < (stages t).length),
      (∀ m, (hm : m < i) → env.exitCode (((stages t).get ⟨m, hm.trans hi⟩).idx) = 0) →
      ∀ p, artifactPath ((stages t).get ⟨i, hi⟩) = some p →
        getFile (goStages env (stages t) fs).fs p =
          some (env.content (((stages t).get ⟨i, hi⟩).idx))) :=
  ⟨stages_artifact_nodup t,
   fun env s fs q h => stageWrite_other env s fs q h,
   fun env fs i hi hpre p hp =>
     goStages_fs_executed (stages t) env fs i hi (stages_artifact_nodup t) hpre p hp⟩

/-- C10 witness: stage 1's artifact still holds its own content after
the whole 21-stage run. -/
theorem c10_artifact_frame_witness :
    getFile (goStages envAllOk (stages "example.com") []).fs
      "output/01_subfinder.txt" = some "x" :=
  (c10_artifact_frame "example.com").2.2 envAllOk [] 0
    (by rw [stages_length]; omega)
    (fun m hm => absurd hm (Nat.not_lt_zero m))
    "output/01_subfinder.txt" rfl

/-- C3 (amended): every stage except the gowitness screenshot stage
(index 12) declares the post-stage existence/non-emptiness check on
its own declared artifact — the screenshot stage declares none; an
executed stage with exit status 0 that declares a check logs the
advisory report, whose flag is false (a warning, distinguishable
from the fatal stage-error event) exactly when the written content
is empty; and the check never changes control flow: the success flag
and the launched-stage list depend only on the exit statuses. -/
theorem c3_checks_advisory (t : String) (env env' : Env) (fs fs' : Fs) :
    (∀ s ∈ stages t,
      (s.idx = 12 → s.checkFile = none) ∧
      (s.idx ≠ 12 → s.checkFile = artifactPath s ∧ s.checkFile.isSome = true)) ∧
    (∀ (i : Nat) (hi : i < (stages t).length),
      (∀ m, (hm : m < i) → env.exitCode (((stages t).get ⟨m, hm.trans hi⟩).idx) = 0) →
      env.exitCode (((stages t).get ⟨i, hi⟩).idx) = 0 →
      ∀ p, ((stages t).get ⟨i, hi⟩).checkFile = some p →
        Event.checkReport (((stages t).get ⟨i, hi⟩).idx)
            (strNonEmpty (env.content (((stages t).get ⟨i, hi⟩).idx)))
          ∈ (goStages env (stages t) fs).events) ∧
    (env.exitCode = env'.exitCode →
      (goStages env (stages t) fs).success = (goStages env' (stages t) fs').success ∧
      invokedIdxs (goStages env (stages t) fs).events =
        invokedIdxs (goStages env' (stages t) fs').events) := by
  refine ⟨?_, ?_, ?_⟩
  · intro s hs
    fin_cases hs <;> constructor <;> intro h <;> simp_all [artifactPath]
  · intro i hi hpre hzero p hcf
    have hap : artifactPath ((stages t).get ⟨i, hi⟩) = some p := by
      rw [← stages_check_eq_artifact t i hi (by rw [hcf]; rfl)]
      exact hcf
    exact goStages_checkReport_mem (stages t) env fs i hi hpre hzero p hcf hap
  · intro hx
    exact goStages_control_flow (stages t) env env' fs fs' hx

/-- C3 witness: in the all-success world stage 1 logs a passing
check report. -/
theorem c3_checks_advisory_witness :
    Event.checkReport 1 true ∈ (goStages envAllOk (stages "example.com") []).events :=
  (c3_checks_advisory "example.com" envAllOk envAllOk [] []).2.1 0
    (by rw [stages_length]; omega)
    (fun m hm => absurd hm (Nat.not_lt_zero m)) rfl
    "output/01_subfinder.txt" rfl

/-- C3 counterexample: in a fully successful run the gowitness stage
(12) is launched, yet no existence/non-emptiness report for it is
ever logged — so the claim's "after each of the 21 stages the runner
reports whether the stage's expected output file exists and is
non-empty" fails at stage 12. -/
theorem c3_counterexample_stage12 :
    Event.invoked 12 ∈ (main_recon "example.com" envAllOk []).2.events ∧
    ((main_recon "example.com" envAllOk []).2.events.countP
      (fun e => match e with
        | Event.checkReport 12 _ => true
        | _ => false)) = 0 := by
  constructor <;> decide

/-- C8: with the target `example.com`, the tools present, the
directories creatable and every stage process exiting 0, the run
exits 0, the files created (in order) are exactly the 20 numbered
artifacts in `output/` plus the gowitness JSON manifest in
`screenshots/`, and the created directories are `output`,
`screenshots` and the `js_out` subdirectory. -/
theorem c8_full_run_artifacts (env : Env)
    (htools : check_tools env = true) (hmk : env.mkdirOk = true)
    (hall : ∀ i, env.exitCode i = 0) :
    (main_recon "example.com" env []).1 = 0 ∧
    (main_recon "example.com" env []).2.fs.map Prod.fst = producedFiles ∧
    (main_recon "example.com" env []).2.dirs = ["output", "screenshots", "output/js_out"] ∧
    producedFiles.countP (fun p => lcStartsWith p.data "output/".data) = 20 ∧
    producedFiles.count "screenshots/gowitness.json" = 1 := by
  have hdot : containsDot "example.com" = true := by decide
  have hs : (goStages env (stages "example.com") []).success = true :=
    (goStages_success_iff _ env []).2 (fun s _ => hall s.idx)
  refine ⟨?_, ?_, ?_, by decide, by decide⟩
  · simp [main_recon, run_recon, hdot, htools, hmk, hs]
  · have hfs : (main_recon "example.com" env []).2.fs =
        (goStages env (stages "example.com") []).fs := by
      simp [main_recon, run_recon, hdot, htools, hmk]
    rw [hfs, goStages_keys _ env [] (fun s _ => hall s.idx)]
    show stageKeys (stages "example.com") [] = producedFiles
    decide
  · simp [main_recon, run_recon, hdot, htools, hmk]

/-- C8 witness: in the all-success world, exit 0 and the declared
artifact list. -/
theorem c8_full_run_artifacts_witness :
    (main_recon "example.com" envAllOk []).1 = 0 ∧
    (main_recon "example.com" envAllOk []).2.fs.map Prod.fst = producedFiles ∧
    (main_recon "example.com" envAllOk []).2.dirs = ["output", "screenshots", "output/js_out"] ∧
    producedFiles.countP (fun p => lcStartsWith p.data "output/".data) = 20 ∧
    producedFiles.count "screenshots/gowitness.json" = 1 :=
  c8_full_run_artifacts envAllOk (by decide) rfl (fun i => rfl)

/-- C4 (amended): `get_tool_version` tries the candidate flags in the
fixed order and accepts the first whose stripped stdout is non-empty
(returning `none` when no flag qualifies), and on acceptance the
result is the extraction `extractVersionText`; when no line yields a
regex match, that extraction is the whole stripped output truncated
to 50 characters (with an ellipsis appended when longer) — not the
first line. -/
theorem c4_version_probe (env : IEnv) (tool : String) :
    (get_tool_version env tool =
      match version_flags.find?
          (fun f => !(lcStrip (env.out [tool, f]).data).isEmpty) with
      | some f => some (extractVersionText (env.out [tool, f]))
      | none => none) ∧
    (∀ s : String,
      findLineVersion (lcSplitCh '\n' (lcStrip s.data)) = none →
      extractVersionText s = String.mk (lcTrunc50 (lcStrip s.data))) := by
  constructor
  · simp only [get_tool_version, get_tool_version_run, version_flags,
      try_version_flags, run_command, Bool.false_and, Bool.false_eq_true,
      if_false, Bool.true_and, List.find?]
    cases hb1 : !(lcStrip (env.out [tool, "--version"]).data).isEmpty <;>
      cases hb2 : !(lcStrip (env.out [tool, "-version"]).data).isEmpty <;>
        cases hb3 : !(lcStrip (env.out [tool, "-v"]).data).isEmpty <;>
          cases hb4 : !(lcStrip (env.out [tool, "version"]).data).isEmpty <;>
            simp [hb1, hb2, hb3, hb4]
  · intro s h
    simp [extractVersionText, h]

/-- C4 witness: a `verytool version v1.2.3` banner is accepted on the
first flag and the dotted version is extracted; and when no line
matches, the whole stripped output is returned truncated. -/
theorem c4_version_probe_witness :
    get_tool_version iEnvVer "verytool" = some "v1.2.3" ∧
    extractVersionText "abc\ndef" = String.mk (lcTrunc50 (lcStrip "abc\ndef".data)) := by
  constructor
  · rw [(c4_version_probe iEnvVer "verytool").1]
    decide
  · exact (c4_version_probe iEnvVer "verytool").2 "abc\ndef" (by decide)

/-- C4 counterexample: a two-line version banner with no version
pattern is returned whole (`"abc\ndef"`), not as its first line
(`"abc"`) as the claim's fallback clause states. -/
theorem c4_counterexample_first_line :
    get_tool_version iEnvML "mytool" = some "abc\ndef" ∧
    spec_first_line (iEnvML.out ["mytool", "--version"]) = "abc" ∧
    get_tool_version iEnvML "mytool" ≠
      some (spec_first_line (iEnvML.out ["mytool", "--version"])) := by
  refine ⟨by decide, by decide, by decide⟩

/-- C5: when the host does not identify as Kali (via either identity
file) or the invoking user is not root, the installer exits with
status 1 having run no command at all — in particular no apt, go
install or nuclei mutation. -/
theorem c5_preconditions_guard (env : IEnv) (force : Bool)
    (h : check_kali_linux env = false ∨ env.euid ≠ 0) :
    main_install env force = 1 ∧ (install env force).2 = [] := by
  have hinst : install env force = (false, []) := by
    rcases h with h | h
    · simp [install, h]
    · by_cases hk : check_kali_linux env
      · simp [install, hk, h]
      · simp [install, hk]
  exact ⟨by simp [main_install, hinst], by rw [hinst]⟩

/-- C5 witness: no identity file present, so the installer refuses
and runs nothing. -/
theorem c5_preconditions_guard_witness :
    main_install iEnvNoKali false = 1 ∧ (install iEnvNoKali false).2 = [] :=
  c5_preconditions_guard iEnvNoKali false (Or.inl (by decide))

/-- C9: `run_command` invoked with `check=False` reports success
regardless of the child's exit status; hence `get_tool_version`
depends only on the captured stdout (a tool exiting non-zero is still
accepted when its stdout is non-empty), and
`check_apt_package_installed` reduces to a substring test on the
probe's stdout. -/
theorem c9_check_false_success (env env' : IEnv) (cmd : Cmd) (tool pkg : String) :
    (run_command env cmd false).1 = true ∧
    (env.out = env'.out → get_tool_version env tool = get_tool_version env' tool) ∧
    (check_apt_package_installed env pkg =
      lcContainsSub (env.out ["dpkg", "-l", pkg]).data pkg.data) := by
  refine ⟨by simp [run_command], ?_, by simp [check_apt_package_installed, run_command]⟩
  intro h
  unfold get_tool_version get_tool_version_run
  rw [try_version_flags_out_only env env' tool h version_flags]

/-- C6: on a Kali host as root with every command succeeding, the
normal install path requests `apt install` only for the packages
whose dpkg probe failed (no apt install at all when none are
missing) and `go install` only for the tools whose version probe
found nothing; the force path requests `apt install --reinstall` of
all 8 packages and `go install` of all 9 tools unconditionally. -/
theorem c6_force_flag_selects (env : IEnv)
    (hKali : check_kali_linux env = true) (hRoot : env.euid = 0)
    (hGo : env.onPath "go" = true) (hMk : env.mkdirOk = true)
    (hExit : ∀ c, env.exit c = 0) :
    ((install env false).2.filter isAptInstallCmd =
      (if (apt_packages.filter
            (fun p => !(check_apt_package_installed env p))).isEmpty
       then ([] : List Cmd)
       else [["apt", "install", "-y"] ++
         apt_packages.filter (fun p => !(check_apt_package_installed env p))])) ∧
    ((install env false).2.filter isGoInstallCmd =
      (go_tools.filter fun tl => (get_tool_version env tl.1).isNone).map
        (fun tl => ["go", "install", "-v", tl.2])) ∧
    ((install env true).2.filter isAptInstallCmd =
      [["apt", "install", "-y", "--reinstall"] ++ apt_packages]) ∧
    ((install env true).2.filter isGoInstallCmd =
      go_tools.map (fun tl => ["go", "install", "-v", tl.2])) := by
  have hb : ∀ c, (env.exit c == 0) = true := fun c => by simp [hExit c]
  have hU : update_system_packages env =
      (true, [["apt", "update"], ["apt", "upgrade", "-y"]]) := by
    simp [update_system_packages, hb]
  have hA1 : (install_apt_packages env).1 = true := by
    by_cases hm : (apt_packages.filter
        (fun p => !(check_apt_package_installed env p))).isEmpty
    · simp [install_apt_packages, hm]
    · simp [install_apt_packages, hm, hb]
  have hFA : force_install_apt_packages env =
      (true, [["apt", "install", "-y", "--reinstall"] ++ apt_packages]) := by
    simp [force_install_apt_packages, hb]
  have hS : setup_go_environment env = (true, [["go", "version"]]) := by
    simp [setup_go_environment, hGo]
  have hG := install_go_tools_go_spec env hExit go_tools
  have hFG := force_install_go_tools_go_spec env hExit go_tools
  have hN : update_nuclei_templates env =
      (true, [["nuclei", "-update-templates"]]) := by
    simp [update_nuclei_templates, hb]
  have hD : installer_create_directories env = (true, []) := by
    simp [installer_create_directories, hMk]
  have hVf : ∀ x, ((verify_installations env).2.filter (isInstallCmdOf x)) = [] := by
    intro x
    simp [verify_installations, List.filter_append,
      verify_go_filter, verify_other_filter]
  have htraceF : (install env false).2 =
      [["apt", "update"], ["apt", "upgrade", "-y"]] ++ (install_apt_packages env).2 ++
      [["go", "version"]] ++ (install_go_tools_go env go_tools).2 ++
      [["nuclei", "-update-templates"]] ++ (verify_installations env).2 := by
    cases hv : (verify_installations env).1 <;>
      simp [install, hKali, hRoot, installSteps, runSteps, install_go_tools,
        hU, hA1, hS, hN, hD, hG.1, hv]
  have htraceT : (install env true).2 =
      [["apt", "update"], ["apt", "upgrade", "-y"]] ++
      [["apt", "install", "-y", "--reinstall"] ++ apt_packages] ++
      [["go", "version"]] ++ (force_install_go_tools_go env go_tools).2 ++
      [["nuclei", "-update-templates"]] ++ (verify_installations env).2 := by
    cases hv : (verify_installations env).1 <;>
      simp [install, hKali, hRoot, installSteps, runSteps, force_install_go_tools,
        hU, hFA, hS, hN, hD, hFG.1, hv]
  have hAptStepApt : (install_apt_packages env).2.filter (isInstallCmdOf "apt") =
      (if (apt_packages.filter
            (fun p => !(check_apt_package_installed env p))).isEmpty
       then ([] : List Cmd)
       else [["apt", "install", "-y"] ++
         apt_packages.filter (fun p => !(check_apt_package_installed env p))]) := by
    by_cases hm : (apt_packages.filter
        (fun p => !(check_apt_package_installed env p))).isEmpty
    · simp [install_apt_packages, hm, dpkg_probes_filter]
    · simp [install_apt_packages, hm, List.filter_append,
        dpkg_probes_filter, List.filter_cons, isInstallCmdOf_two]
  have hAptStepGo : (install_apt_packages env).2.filter (isInstallCmdOf "go") = [] := by
    by_cases hm : (apt_packages.filter
        (fun p => !(check_apt_package_installed env p))).isEmpty
    · simp [install_apt_packages, hm, dpkg_probes_filter]
    · simp [install_apt_packages, hm, List.filter_append,
        dpkg_probes_filter, List.filter_cons, isInstallCmdOf_two]
  refine ⟨?_, ?_, ?_, ?_⟩
  · rw [htraceF]
    simp only [isAptInstallCmd, List.filter_append, hAptStepApt, hVf "apt", hG.2.2]
    simp [isInstallCmdOf_two]
  · rw [htraceF]
    simp only [isGoInstallCmd, List.filter_append, hAptStepGo, hVf "go", hG.2.1]
    simp [isInstallCmdOf_two]
  · rw [htraceT]
    simp only [isAptInstallCmd, List.filter_append, hVf "apt", hFG.2.2]
    simp [isInstallCmdOf_two]
  · rw [htraceT]
    simp only [isGoInstallCmd, List.filter_append, hVf "go", hFG.2.1]
    simp [isInstallCmdOf_two]

/-- C6 witness: Kali host, root, all probes empty: the normal path
installs all 8 packages and all 9 tools (all were missing), the
force path reinstalls them all. -/
theorem c6_force_flag_selects_witness :
    ((install iEnvKali false).2.filter isAptInstallCmd =
      (if (apt_packages.filter
            (fun p => !(check_apt_package_installed iEnvKali p))).isEmpty
       then ([] : List Cmd)
       else [["apt", "install", "-y"] ++
         apt_packages.filter (fun p => !(check_apt_package_installed iEnvKali p))])) ∧
    ((install iEnvKali false).2.filter isGoInstallCmd =
      (go_tools.filter fun tl => (get_tool_version iEnvKali tl.1).isNone).map
        (fun tl => ["go", "install", "-v", tl.2])) ∧
    ((install iEnvKali true).2.filter isAptInstallCmd =
      [["apt", "install", "-y", "--reinstall"] ++ apt_packages]) ∧
    ((install iEnvKali true).2.filter isGoInstallCmd =
      go_tools.map (fun tl => ["go", "install", "-v", tl.2])) :=
  c6_force_flag_selects iEnvKali (by decide) rfl rfl rfl (fun c => rfl)

/-- C9 witness: with every command exiting 1 but the same stdout,
`get_tool_version` is unchanged, and `run_command` still reports
success with `check=False`. -/
theorem c9_check_false_success_witness :
    (run_command iEnvMLFail ["x"] false).1 = true ∧
    get_tool_version iEnvMLFail "mytool" = get_tool_version iEnvML "mytool" ∧
    check_apt_package_installed iEnvMLFail "git" =
      lcContainsSub (iEnvMLFail.out ["dpkg", "-l", "git"]).data "git".data := by
  have h := c9_check_false_success iEnvMLFail iEnvML ["x"] "mytool" "git"
  exact ⟨h.1, h.2.1 rfl, h.2.2⟩

end GhostRecon
